import Mathlib

/-!
# obs-studio-node: engine process lifecycle and signal poll client

A shallow embedding of

* `obs-studio-server/source/main.cpp`: the connection tracker
  (`ServerData`, `ServerConnectHandler`, `ServerDisconnectHandler`), the remote
  `System::Shutdown` handler and `main` with its idle-shutdown loop and the
  crash-handler handshake;
* `obs-studio-client/source/nodeobs_service.cpp`: one cycle of
  `service::worker`, and the functions that start and stop the poller
  (`start_worker`, `stop_worker`, the three `OBS_service_start...` functions and
  `OBS_service_removeCallback`).

Conventions.

* `size_t` is an unsigned integer of `w` bits; `w` is a parameter of every
  definition that does `size_t` arithmetic (`w = 64` on the x64 build).
* A `std::chrono::high_resolution_clock::time_point` is the integer number of
  clock ticks since the clock's epoch; the clock's period is one nanosecond
  (`main.cpp` is a Windows program, and there `high_resolution_clock` is
  `steady_clock`, whose period is `std::nano`).
* Connects, disconnects, remote calls and iterations of the polling loop are
  taken one at a time, in the order of an interleaving given as a list.
* The calls `main` makes to the operating system and to the IPC server are
  recorded, in program order, as a list of `Action`s; what those calls return is
  read from an environment record.
-/

namespace ObsStudioNode

/-! ## Connection tracker (main.cpp, lines 51-73) -/

/-- The fields of `struct ServerData` other than the mutex. -/
structure ServerData where
  last_connect : Int
  last_disconnect : Int
  count_connected : Nat
  deriving DecidableEq, Repr

/-- `ServerConnectHandler`: stamps `last_connect` and runs `count_connected++`
on a `size_t` of `w` bits. The handler returns `true`. -/
def ServerConnectHandler (w : Nat) (sd : ServerData) (now : Int) : ServerData × Bool :=
  ({ sd with last_connect := now, count_connected := (sd.count_connected + 1) % 2 ^ w }, true)

/-- `ServerDisconnectHandler`: stamps `last_disconnect` and runs
`count_connected--` on a `size_t` of `w` bits (subtracting one is adding
`2 ^ w - 1` modulo `2 ^ w`). -/
def ServerDisconnectHandler (w : Nat) (sd : ServerData) (now : Int) : ServerData :=
  { sd with last_disconnect := now,
            count_connected := (sd.count_connected + (2 ^ w - 1)) % 2 ^ w }

/-! ## The state `main` shares with the server threads -/

/-- The locals of `main` that the server callbacks and the polling loop share:
`sd`, `doShutdown` and `waitBeforeClosing`. -/
structure MainState where
  sd : ServerData
  doShutdown : Bool
  waitBeforeClosing : Bool
  deriving DecidableEq, Repr

/-- `System::Shutdown`: sets the flag behind `data` (which `main` registers as
`&doShutdown`) and pushes `ErrorCode::Ok` on the return values. -/
def System.Shutdown (st : MainState) : MainState :=
  { st with doShutdown := true }

/-- `std::chrono::duration_cast<std::chrono::milliseconds>(delta).count()` for a
duration in nanosecond ticks: division by `10^6` rounding toward zero. -/
def duration_cast_ms (delta : Int) : Int :=
  Int.tdiv delta 1000000

/-- The body of `while (!doShutdown)` in `main` (lines 267-274), with `tp` the
value `high_resolution_clock::now()` returns in this iteration. -/
def loopBody (st : MainState) (tp : Int) : MainState :=
  if st.sd.count_connected = 0 then
    let delta := tp - st.sd.last_disconnect
    if duration_cast_ms delta > 5000 then
      { st with doShutdown := true, waitBeforeClosing := true }
    else st
  else st

/-- What can happen while `main` is in its polling loop: the server reports a
connect or a disconnect (at clock value `now`), a client calls
`System::Shutdown`, or the main thread evaluates the loop condition (and, when
it holds, runs the body with clock value `now`). -/
inductive Event where
  | connect (now : Int)
  | disconnect (now : Int)
  | shutdown
  | poll (now : Int)
  deriving DecidableEq, Repr

/-- The effect of one event on the shared state. A `poll` that finds
`doShutdown` set is the loop exit and changes nothing. -/
def step (w : Nat) (st : MainState) : Event → MainState
  | .connect now => { st with sd := (ServerConnectHandler w st.sd now).1 }
  | .disconnect now => { st with sd := ServerDisconnectHandler w st.sd now }
  | .shutdown => System.Shutdown st
  | .poll now => if st.doShutdown then st else loopBody st now

/-- Replays a sequence of events, oldest first. -/
def replay (w : Nat) (st : MainState) (evs : List Event) : MainState :=
  evs.foldl (step w) st

/-- The shared state as lines 212-215 leave it, `t` being the clock value read
at line 214: no client, both time stamps at `t`, no shutdown requested. It is
also the state in which `main` enters the polling loop when no event precedes
line 262 and that line reads the clock value `t`. -/
def initialState (t : Int) : MainState :=
  { sd := { last_connect := t, last_disconnect := t, count_connected := 0 },
    doShutdown := false, waitBeforeClosing := false }

/-- Number of connect events in a sequence. -/
def connects (evs : List Event) : Nat :=
  (evs.filter fun e => match e with | .connect _ => true | _ => false).length

/-- Number of disconnect events in a sequence. -/
def disconnects (evs : List Event) : Nat :=
  (evs.filter fun e => match e with | .disconnect _ => true | _ => false).length

/-- The change of the mathematical connection count that an event stands for. -/
def countDelta : Event → Int
  | .connect _ => 1
  | .disconnect _ => -1
  | _ => 0

/-! ## `main` (main.cpp, lines 187-308) -/

/-- The calls of `main` that are visible outside it, in the order of the
program text. `Register cls` is the registration of collection `cls` on
`myServer`, `serverInitialize path` the call `myServer.initialize(path)` (the
bare word is reserved here), `finalize` the call `myServer.finalize()`,
`cerr msg` a line written to `std::cerr`, `sleep_for ms` the sleep that ends an
iteration of the polling loop. -/
inductive Action where
  | AllocConsole
  | BindCrtHandlesToStdHandles
  | crashManagerInitialize
  | cerr (msg : String)
  | Register (cls : String)
  | set_connect_handler
  | set_disconnect_handler
  | serverInitialize (path : String)
  | sleep_for (ms : Nat)
  | CreateNamedPipe
  | ConnectNamedPipe
  | ReadFile
  | CloseHandle
  | finalize
  deriving DecidableEq, Repr

/-- How `myServer.initialize(argv[1])` ends: it returns, it throws a
`std::exception` (whose `what()` after the catch by value is `what`), or it
throws something else. -/
inductive InitializeOutcome where
  | returns
  | throwsStdException (what : String)
  | throwsOther
  deriving DecidableEq, Repr

/-- What a server thread can deliver before `main` reaches its polling loop: a
connect or a disconnect (at clock value `now`) or a call of
`System::Shutdown`. -/
inductive ServerEvent where
  | connect (now : Int)
  | disconnect (now : Int)
  | shutdown
  deriving DecidableEq, Repr

/-- A server event as an event of the interleaving. -/
def ServerEvent.toEvent : ServerEvent → Event
  | .connect now => .connect now
  | .disconnect now => .disconnect now
  | .shutdown => .shutdown

/-- What the surroundings of `main` decide: the command line (`argc` is the
length of `argv`), the results of the calls `main` makes, the clock values read
at lines 214 and 262, the events `early` that the server threads deliver
between `myServer.initialize` and line 262, and the events that occur from
line 262 on, while `main` polls. -/
structure MainEnv where
  argv : List String
  crashManagerInitialize : Bool
  serverInitialize : InitializeOutcome
  /-- The clock value read at line 214. -/
  startClock : Int := 0
  /-- The events delivered after `myServer.initialize` and before line 262. -/
  early : List ServerEvent := []
  /-- The clock value read at line 262. -/
  clock : Int
  events : List Event
  /-- `CreateNamedPipe` returned a handle other than `INVALID_HANDLE_VALUE`. -/
  CreateNamedPipe : Bool
  /-- `ConnectNamedPipe` returned a value other than `FALSE`. -/
  ConnectNamedPipe : Bool
  /-- The value `fSuccess` that `ReadFile` returned. -/
  ReadFile : Bool
  deriving Repr

/-- The collections registered at lines 219-244, in order (`OBS_settings` is
registered twice in the source). -/
def registrations : List String :=
  ["System", "osn::Global", "osn::Source", "osn::Input", "osn::Filter", "osn::Transition",
   "osn::Scene", "osn::SceneItem", "osn::Fader", "osn::VolMeter", "osn::Properties",
   "osn::Video", "osn::Module", "OBS_API", "OBS_content", "OBS_service", "OBS_settings",
   "OBS_settings", "autoConfig"]

/-- The loop `while (!doShutdown) { ...; sleep_for(50ms); }` run against a
schedule of events. `some (st, acts)`: the loop condition was found false in
state `st` after the sleeps `acts`. `none`: the schedule ended with the loop
still running. -/
def mainLoop (w : Nat) : List Event → MainState → Option (MainState × List Action)
  | [], _ => none
  | .connect now :: es, st => mainLoop w es (step w st (.connect now))
  | .disconnect now :: es, st => mainLoop w es (step w st (.disconnect now))
  | .shutdown :: es, st => mainLoop w es (step w st .shutdown)
  | .poll now :: es, st =>
    if st.doShutdown then some (st, [])
    else
      match mainLoop w es (loopBody st now) with
      | none => none
      | some (st', acts) => some (st', Action.sleep_for 50 :: acts)

/-- Lines 278-307: the wait for the crash handler's exit message and the
finalization of the server, with the exit code `main` returns. -/
def shutdownSequence (waitBeforeClosing : Bool) (env : MainEnv) : Int × List Action :=
  if waitBeforeClosing then
    if env.CreateNamedPipe then
      if env.ConnectNamedPipe then
        if !env.ReadFile then
          (0, [.CreateNamedPipe, .ConnectNamedPipe, .ReadFile])
        else
          (0, [.CreateNamedPipe, .ConnectNamedPipe, .ReadFile, .CloseHandle, .finalize])
      else
        (0, [.CreateNamedPipe, .ConnectNamedPipe, .finalize])
    else
      (0, [.CreateNamedPipe, .finalize])
  else
    (0, [.finalize])

/-- The calls of lines 190-197. -/
def consoleAndCrashManager : List Action :=
  [.AllocConsole, .BindCrtHandlesToStdHandles, .crashManagerInitialize]

/-- The calls of lines 219-252, for the channel path `path`. -/
def registerAndInitialize (path : String) : List Action :=
  registrations.map Action.Register
    ++ [.set_connect_handler, .set_disconnect_handler, .serverInitialize path]

/-- The state in which `main` evaluates the loop condition for the first time:
the state of lines 212-215 after the events `early`, with both time stamps
overwritten at line 262 and `waitBeforeClosing` declared `false` at line 264.
The count and `doShutdown` are as the early events left them. -/
def loopEntryState (w : Nat) (env : MainEnv) : MainState :=
  let st := replay w (initialState env.startClock) (env.early.map ServerEvent.toEvent)
  { sd := { st.sd with last_disconnect := env.clock, last_connect := env.clock },
    doShutdown := st.doShutdown,
    waitBeforeClosing := false }

/-- The function `main`: exit code and calls made, or `none` when the schedule
of events ends while the polling loop still runs. -/
def main (w : Nat) (env : MainEnv) : Option (Int × List Action) :=
  if !env.crashManagerInitialize then
    some (0, consoleAndCrashManager)
  else if env.argv.length ≠ 2 then
    some (-1, consoleAndCrashManager ++ [.cerr "There must be exactly one parameter."])
  else
    let started := consoleAndCrashManager ++ registerAndInitialize (env.argv.getD 1 "")
    match env.serverInitialize with
    | .throwsStdException what =>
      some (-2, started ++ [.cerr ("Initialization failed with error " ++ what ++ ".")])
    | .throwsOther =>
      some (-2, started ++ [.cerr "Failed to initialize server"])
    | .returns =>
      match mainLoop w env.events (loopEntryState w env) with
      | none => none
      | some (st, sleeps) =>
        let fin := shutdownSequence st.waitBeforeClosing env
        some (fin.1, started ++ sleeps ++ fin.2)

/-- In the list of calls `l`, a call `a` is made and no call `b` is made before
the first `a`. -/
def Precedes (a b : Action) (l : List Action) : Prop :=
  ∃ pre post, l = pre ++ a :: post ∧ b ∉ pre

/-! ## One cycle of `service::worker` (nodeobs_service.cpp, lines 223-261) -/

/-- An `ipc::value` as far as the worker reads it (the type is declared in the
IPC library, outside these sources): the eight bytes of the union `value_union`
as a little-endian number, and the string `value_str`. -/
structure IpcValue where
  value_union : Nat
  value_str : String
  deriving DecidableEq, Repr

/-- The member `value_union.ui64`. -/
def IpcValue.ui64 (v : IpcValue) : Nat :=
  v.value_union % 2 ^ 64

/-- The member `value_union.i32`: the low four bytes as a two's complement
number. -/
def IpcValue.i32 (v : IpcValue) : Int :=
  let u : Nat := v.value_union % 2 ^ 32
  if u < 2 ^ 31 then (u : Int) else (u : Int) - 2 ^ 32

/-- The `ipc::value` built from a `uint64_t`. -/
def IpcValue.ofUInt64 (u : Nat) : IpcValue :=
  { value_union := u % 2 ^ 64, value_str := "" }

/-- The `ipc::value` built from an `int32_t`: the four low bytes hold the two's
complement of `i`. -/
def IpcValue.ofInt32 (i : Int) : IpcValue :=
  { value_union := (i % 2 ^ 32).toNat, value_str := "" }

/-- The `ipc::value` built from a string. -/
def IpcValue.ofString (s : String) : IpcValue :=
  { value_union := 0, value_str := s }

/-- The fields of `SignalInfo` that the worker fills. -/
structure SignalInfo where
  outputType : String
  signal : String
  code : Int
  errorMessage : String
  deriving DecidableEq, Repr

/-- A thread made by `new std::thread(&service::queueTask, data)`: it runs
`service::queueTask` on `data`. -/
structure QueueTaskThread where
  data : SignalInfo
  deriving DecidableEq, Repr

/-- A live connection, as seen by one cycle: the response its
`call_synchronous_helper("Service", "Query", {})` returns. -/
structure Connection where
  query : List IpcValue
  deriving DecidableEq, Repr

/-- A failed step of a cycle: `response[index]` on a vector of `size`
elements with `index >= size`. -/
inductive WorkerFault where
  | outOfRange (index size : Nat)
  deriving DecidableEq, Repr

/-- The access `response[i]`. -/
def elementAt (response : List IpcValue) (i : Nat) : Except WorkerFault IpcValue :=
  match response[i]? with
  | some v => .ok v
  | none => .error (.outOfRange i response.length)

/-- `service::sleepIntervalMS`. -/
def sleepIntervalMS : Nat := 33

/-- What a completed cycle leaves: the vector `service_queue_task_workers`,
the value stored in the `size_t` variable `totalSleepMS`, and the count of the
`std::chrono::milliseconds` (a signed 64-bit count) handed to `sleep_for`. -/
structure CycleResult where
  service_queue_task_workers : List QueueTaskThread
  totalSleepMS : Nat
  sleep_for : Int
  deriving DecidableEq, Repr

/-- The label `do_sleep` (lines 254-258), with `dur` the value of `dur.count()`:
the signed difference `sleepIntervalMS - dur.count()` is stored in a `size_t` of
`w` bits (reduction modulo `2 ^ w`) and then converted to the signed 64-bit
count of `std::chrono::milliseconds` (two's complement). -/
def do_sleep (w : Nat) (workers : List QueueTaskThread) (dur : Int) : CycleResult :=
  let totalSleepMS := (((sleepIntervalMS : Int) - dur) % 2 ^ w).toNat
  { service_queue_task_workers := workers,
    totalSleepMS := totalSleepMS,
    sleep_for := if totalSleepMS % 2 ^ 64 < 2 ^ 63 then ((totalSleepMS % 2 ^ 64 : Nat) : Int)
                 else ((totalSleepMS % 2 ^ 64 : Nat) : Int) - 2 ^ 64 }

/-- One iteration of the loop of `service::worker`. `isOk u` is the test
`(ErrorCode)u == ErrorCode::Ok` (the enumeration is declared in `error.hpp`),
`conn` the connection `GetConnection()` returns (`none` for a null pointer),
`dur` the measured duration of the cycle in milliseconds, `workers` the vector
`service_queue_task_workers` before the cycle. -/
def workerCycle (w : Nat) (isOk : Nat → Bool) (conn : Option Connection) (dur : Int)
    (workers : List QueueTaskThread) : Except WorkerFault CycleResult :=
  match conn with
  | none => .ok (do_sleep w workers dur)
  | some c =>
    let response := c.query
    if response.length = 0 ∨ response.length = 1 then
      .ok (do_sleep w workers dur)
    else do
      let r0 ← elementAt response 0
      if isOk r0.ui64 then
        let r1 ← elementAt response 1
        let r2 ← elementAt response 2
        let r3 ← elementAt response 3
        let r4 ← elementAt response 4
        let data : SignalInfo :=
          { outputType := r1.value_str, signal := r2.value_str, code := r3.i32,
            errorMessage := r4.value_str }
        .ok (do_sleep w (workers ++ [{ data := data }]) dur)
      else
        .ok (do_sleep w workers dur)

/-- An instance of the parameter `isOk` of `workerCycle`, for sample runs: the
test `(ErrorCode)u == ErrorCode::Ok` when `ErrorCode::Ok` is the enumerator of
value zero (`error.hpp` is not among the sources). -/
def isOkZero (u : Nat) : Bool := u == 0

/-! ## Sample runs of `main` -/

/-- A run in which a client connects and calls `System::Shutdown`; the loop
condition is evaluated 50 ms later. -/
def shutdownCallEnv : MainEnv :=
  { argv := ["obs64.exe", "osn-socket"], crashManagerInitialize := true,
    serverInitialize := .returns, clock := 0,
    events := [.connect 1000000, .shutdown, .poll 50000000],
    CreateNamedPipe := true, ConnectNamedPipe := true, ReadFile := true }

/-- A run in which no client ever connects, the idle check fires at 5001 ms, the
pipe is created, the crash handler connects, and `ReadFile` fails. -/
def readFailsEnv : MainEnv :=
  { argv := ["obs64.exe", "osn-socket"], crashManagerInitialize := true,
    serverInitialize := .returns, clock := 0,
    events := [.poll 5001000000, .poll 5051000000],
    CreateNamedPipe := true, ConnectNamedPipe := true, ReadFile := false }

/-- A run like `readFailsEnv` in which `ReadFile` succeeds. -/
def idleEnv : MainEnv :=
  { readFailsEnv with ReadFile := true }

/-- A run in which a client connects and disconnects before line 262 (the
disconnect at clock value 1 ms, line 262 at 50 ms) and no client comes later;
the loop condition is evaluated at clock values 5001 ms, 5051 ms and 5101 ms,
and the handshake succeeds. -/
def earlyDisconnectEnv : MainEnv :=
  { argv := ["obs64.exe", "osn-socket"], crashManagerInitialize := true,
    serverInitialize := .returns, startClock := 0,
    early := [.connect 500000, .disconnect 1000000], clock := 50000000,
    events := [.poll 5001000000, .poll 5051000000, .poll 5101000000],
    CreateNamedPipe := true, ConnectNamedPipe := true, ReadFile := true }

/-- A run with no argument after the program name in which
`crashManager.Initialize()` fails. -/
def crashManagerFailsEnv : MainEnv :=
  { argv := ["obs64.exe"], crashManagerInitialize := false,
    serverInitialize := .returns, clock := 0, events := [],
    CreateNamedPipe := true, ConnectNamedPipe := true, ReadFile := true }

/-- A run with three arguments after the program name. -/
def threeArgumentsEnv : MainEnv :=
  { crashManagerFailsEnv with
    argv := ["obs64.exe", "a", "b", "c"], crashManagerInitialize := true }

/-- A run in which `myServer.initialize` throws a `std::exception`. -/
def bindFailsEnv : MainEnv :=
  { shutdownCallEnv with serverInitialize := .throwsStdException "Unknown exception" }

/-- The five-element response of the contract,
`[errorCode, outputType, signal, code, errorMessage]`, with the error code sent
as a `uint64_t` and the signal code as an `int32_t`. -/
def signalResponse (errorCode : Nat) (outputType signal : String) (code : Int)
    (errorMessage : String) : List IpcValue :=
  [.ofUInt64 errorCode, .ofString outputType, .ofString signal, .ofInt32 code,
   .ofString errorMessage]

/-- The least time, in milliseconds, for which
`std::this_thread::sleep_for(std::chrono::milliseconds(count))` blocks: a
duration that is zero or negative does not block. -/
def blockedMs (count : Int) : Int :=
  max 0 count

/-! ## Start and stop of the poller (nodeobs_service.cpp, lines 34-145, 263-269) -/

/-- The calls the client makes when it starts or stops the poller, one per
statement of the source: `new_worker_thread` is
`worker_thread = new std::thread(&service::worker)`, `join_worker_thread` is
`if (worker_thread->joinable()) worker_thread->join();`,
`join_queue_task_workers` is the loop over `service_queue_task_workers`,
`call function` is `conn->call("Service", function, ...)`. -/
inductive ServiceCall where
  | create_semaphore
  | new_worker_thread
  | join_worker_thread
  | join_queue_task_workers
  | remove_semaphore
  | delete_asyncWorker
  | call (function : String)
  deriving DecidableEq, Repr

/-- The static flags `service::isWorkerRunning` and `service::worker_stop`, with
the calls made so far. -/
structure ServiceState where
  isWorkerRunning : Bool
  worker_stop : Bool
  calls : List ServiceCall
  deriving DecidableEq, Repr

/-- The initializers of lines 34-35. -/
def ServiceState.initial : ServiceState :=
  { isWorkerRunning := false, worker_stop := true, calls := [] }

/-- `service::start_worker`. -/
def service.start_worker (s : ServiceState) : ServiceState :=
  if !s.worker_stop then s
  else
    { s with worker_stop := false,
             calls := s.calls ++ [.create_semaphore, .new_worker_thread] }

/-- `service::stop_worker`. -/
def service.stop_worker (s : ServiceState) : ServiceState :=
  if s.worker_stop != false then s
  else
    { s with worker_stop := true,
             calls := s.calls
               ++ [.join_worker_thread, .join_queue_task_workers, .remove_semaphore] }

/-- `service::OBS_service_startStreaming`; `conn` tells whether
`GetConnection(info)` returned a connection. -/
def service.OBS_service_startStreaming (conn : Bool) (s : ServiceState) : ServiceState :=
  let s1 := if !s.isWorkerRunning then { service.start_worker s with isWorkerRunning := true }
            else s
  if !conn then s1
  else { s1 with calls := s1.calls ++ [.call "OBS_service_startStreaming"] }

/-- `service::OBS_service_startRecording`. -/
def service.OBS_service_startRecording (conn : Bool) (s : ServiceState) : ServiceState :=
  let s1 := if !s.isWorkerRunning then { service.start_worker s with isWorkerRunning := true }
            else s
  if !conn then s1
  else { s1 with calls := s1.calls ++ [.call "OBS_service_startRecording"] }

/-- `service::OBS_service_startReplayBuffer`. -/
def service.OBS_service_startReplayBuffer (conn : Bool) (s : ServiceState) : ServiceState :=
  let s1 := if !s.isWorkerRunning then { service.start_worker s with isWorkerRunning := true }
            else s
  if !conn then s1
  else { s1 with calls := s1.calls ++ [.call "OBS_service_startReplayBuffer"] }

/-- `service::OBS_service_removeCallback`. -/
def service.OBS_service_removeCallback (s : ServiceState) : ServiceState :=
  let s1 := if s.isWorkerRunning then service.stop_worker s else s
  { s1 with calls := s1.calls ++ [.delete_asyncWorker] }

/-- The other functions the module exports (`OBS_service_stopStreaming`,
`OBS_service_resetAudioContext`, ...): they assign neither flag; those that
reach the server forward one call when there is a connection. -/
def service.forward (function : String) (conn : Bool) (s : ServiceState) : ServiceState :=
  if !conn then s else { s with calls := s.calls ++ [.call function] }

/-- A call of one of the functions the module exports. -/
inductive ServiceOp where
  | startStreaming (conn : Bool)
  | startRecording (conn : Bool)
  | startReplayBuffer (conn : Bool)
  | removeCallback
  | other (function : String) (conn : Bool)
  deriving DecidableEq, Repr

/-- The effect of one exported function on the client state. -/
def ServiceOp.apply (s : ServiceState) : ServiceOp → ServiceState
  | .startStreaming conn => service.OBS_service_startStreaming conn s
  | .startRecording conn => service.OBS_service_startRecording conn s
  | .startReplayBuffer conn => service.OBS_service_startReplayBuffer conn s
  | .removeCallback => service.OBS_service_removeCallback s
  | .other function conn => service.forward function conn s

/-- The client state after a sequence of calls, oldest first. -/
def runOps (s : ServiceState) (ops : List ServiceOp) : ServiceState :=
  ops.foldl ServiceOp.apply s

/-- Number of poll threads created so far. -/
def workerThreads (s : ServiceState) : Nat :=
  s.calls.count ServiceCall.new_worker_thread

/-! # Theorems -/

/-! ## Connection count -/


theorem step_count_lt (w : Nat) (st : MainState) (e : Event)
    (h : st.sd.count_connected < 2 ^ w) : (step w st e).sd.count_connected < 2 ^ w := by
  have hpos : 0 < 2 ^ w := Nat.pos_pow_of_pos w (by decide)
  cases e with
  | connect now => exact Nat.mod_lt _ hpos
  | disconnect now => exact Nat.mod_lt _ hpos
  | shutdown => exact h
  | poll now =>
    simp only [step, loopBody]
    split
    · exact h
    · split
      · split <;> exact h
      · exact h

theorem step_count (w : Nat) (st : MainState) (e : Event) :
    ((step w st e).sd.count_connected : Int) % 2 ^ w
      = ((st.sd.count_connected : Int) + countDelta e) % 2 ^ w := by
  have hpos : 1 ≤ 2 ^ w := Nat.pos_pow_of_pos w (by decide)
  cases e with
  | connect now =>
    simp only [step, ServerConnectHandler, countDelta]
    push_cast
    exact Int.emod_emod_of_dvd _ (dvd_refl _)
  | disconnect now =>
    simp only [step, ServerDisconnectHandler, countDelta]
    push_cast [Nat.cast_sub hpos]
    rw [Int.emod_emod_of_dvd _ (dvd_refl _)]
    have : (st.sd.count_connected : Int) + (2 ^ w - 1)
        = (st.sd.count_connected + -1) + 2 ^ w := by ring
    rw [this, Int.add_emod_self]
  | shutdown => simp [step, System.Shutdown, countDelta]
  | poll now =>
    simp only [step, loopBody, countDelta, add_zero]
    split
    · rfl
    · split
      · split <;> rfl
      · rfl

theorem countDelta_sum (evs : List Event) :
    (evs.map countDelta).sum = (connects evs : Int) - (disconnects evs : Int) := by
  induction evs with
  | nil => simp [connects, disconnects]
  | cons e es ih =>
    have hc : connects (e :: es)
        = (match e with | .connect _ => 1 | _ => 0) + connects es := by
      cases e <;> simp [connects, List.filter_cons, Nat.add_comm]
    have hd : disconnects (e :: es)
        = (match e with | .disconnect _ => 1 | _ => 0) + disconnects es := by
      cases e <;> simp [disconnects, List.filter_cons, Nat.add_comm]
    rw [List.map_cons, List.sum_cons, ih, hc, hd]
    cases e <;> simp [countDelta] <;> ring

/-- Replay changes the count by the sum of the events' deltas, modulo `2 ^ w`. -/
theorem replay_count_mod (w : Nat) (evs : List Event) (st : MainState) :
    ((replay w st evs).sd.count_connected : Int) % 2 ^ w
      = ((st.sd.count_connected : Int) + (evs.map countDelta).sum) % 2 ^ w := by
  induction evs generalizing st with
  | nil => simp [replay]
  | cons e es ih =>
    have h := ih (step w st e)
    simp only [replay, List.foldl_cons] at h ⊢
    rw [h, List.map_cons, List.sum_cons, Int.add_emod, step_count, ← Int.add_emod]
    congr 1
    ring

theorem replay_count_lt (w : Nat) (evs : List Event) (st : MainState)
    (h : st.sd.count_connected < 2 ^ w) : (replay w st evs).sd.count_connected < 2 ^ w := by
  induction evs generalizing st with
  | nil => exact h
  | cons e es ih => exact ih (step w st e) (step_count_lt w st e h)

/-- From a count of zero, replay leaves `(#connects - #disconnects) mod 2 ^ w`
in `count_connected`. -/
theorem replay_count_eq (w : Nat) (t : Int) (evs : List Event) :
    ((replay w (initialState t) evs).sd.count_connected : Int)
      = ((connects evs : Int) - (disconnects evs : Int)) % 2 ^ w := by
  have hlt := replay_count_lt w evs (initialState t)
    (by simp [initialState])
  have h := replay_count_mod w evs (initialState t)
  rw [countDelta_sum] at h
  simp only [initialState, Nat.cast_zero, zero_add] at h
  rw [← h]
  symm
  apply Int.emod_eq_of_lt (by positivity)
  exact_mod_cast hlt

/-- C1, as stated, fails: on a 64-bit `size_t`, a single disconnect replayed
from `count_connected = 0` leaves `2^64 - 1` in the count, not
`max(0, 0 - 1) = 0`. -/
theorem count_connected_disconnect_at_zero_wraps :
    (replay 64 (initialState 0) [Event.disconnect 0]).sd.count_connected
        = 18446744073709551615
      ∧ ((replay 64 (initialState 0) [Event.disconnect 0]).sd.count_connected : Int)
        ≠ max 0 ((connects [Event.disconnect 0] : Int) - (disconnects [Event.disconnect 0] : Int)) := by
  have h : (replay 64 (initialState 0) [Event.disconnect 0]).sd.count_connected
      = 18446744073709551615 := by
    simp [replay, step, ServerDisconnectHandler, initialState]
  refine ⟨h, ?_⟩
  rw [h]
  simp [connects, disconnects]

/-- C1, amended: from `count_connected = 0`, after replaying any finite
sequence of connect and disconnect events (in any order, with any other events
between them) the count is `(#connects - #disconnects) mod 2^w`, `w` the width
of `size_t`; so whenever `#disconnects ≤ #connects < #disconnects + 2^w` it is
`max(0, #connects - #disconnects)`. -/
theorem count_connected_after_replay (w : Nat) (t : Int) (evs : List Event) :
    ((replay w (initialState t) evs).sd.count_connected : Int)
        = ((connects evs : Int) - (disconnects evs : Int)) % 2 ^ w
      ∧ (disconnects evs ≤ connects evs → connects evs < disconnects evs + 2 ^ w →
          ((replay w (initialState t) evs).sd.count_connected : Int)
            = max 0 ((connects evs : Int) - (disconnects evs : Int))) := by
  refine ⟨replay_count_eq w t evs, fun hle hlt => ?_⟩
  rw [replay_count_eq w t evs]
  have h0 : (0 : Int) ≤ (connects evs : Int) - (disconnects evs : Int) := by omega
  have h1 : (connects evs : Int) - (disconnects evs : Int) < 2 ^ w := by
    have : ((connects evs : Nat) : Int) < ((disconnects evs + 2 ^ w : Nat) : Int) := by
      exact_mod_cast hlt
    push_cast at this
    linarith
  rw [Int.emod_eq_of_lt h0 h1, max_eq_right h0]

/-- C1 witness: connect, disconnect, disconnect, connect, connect on a 64-bit
`size_t` (the second disconnect has no matching connect before it). -/
theorem count_connected_after_replay_witness :
    ((replay 64 (initialState 0)
        [.connect 1, .disconnect 2, .disconnect 3, .connect 4, .connect 5]).sd.count_connected : Int)
      = max 0 ((connects [.connect 1, .disconnect 2, .disconnect 3, .connect 4, .connect 5] : Int)
          - (disconnects [.connect 1, .disconnect 2, .disconnect 3, .connect 4, .connect 5] : Int)) :=
  (count_connected_after_replay 64 0
      [.connect 1, .disconnect 2, .disconnect 3, .connect 4, .connect 5]).2
    (by decide) (by decide)

/-! ## The idle check -/

/-- The truncated millisecond count exceeds 5000 exactly from 5001 ms on. -/
theorem duration_cast_ms_gt_iff (delta : Int) :
    duration_cast_ms delta > 5000 ↔ 5001000000 ≤ delta := by
  unfold duration_cast_ms
  rcases le_or_lt 0 delta with h | h
  · rw [Int.tdiv_eq_ediv h (by decide)]
    omega
  · have h1 : delta = -(-delta) := by ring
    rw [h1, Int.neg_tdiv, Int.tdiv_eq_ediv (by omega) (by decide)]
    omega

/-- The loop body changes the state only when the idle check fires, and it fires
exactly when no client is counted and at least 5001 ms have passed. -/
theorem loopBody_eq (st : MainState) (tp : Int) :
    loopBody st tp
      = if st.sd.count_connected = 0 ∧ 5001000000 ≤ tp - st.sd.last_disconnect then
          { st with doShutdown := true, waitBeforeClosing := true }
        else st := by
  unfold loopBody
  by_cases hc : st.sd.count_connected = 0
  · by_cases hd : 5001000000 ≤ tp - st.sd.last_disconnect
    · simp [hc, hd, (duration_cast_ms_gt_iff _).2 hd]
    · have : ¬ duration_cast_ms (tp - st.sd.last_disconnect) > 5000 :=
        fun h => hd ((duration_cast_ms_gt_iff _).1 h)
      simp only [hc, hd, and_false, if_false, if_true]
      rw [if_neg this]
  · simp [hc]

/-- C2: after any interleaving `evs` of connects, disconnects, `System::Shutdown`
calls and loop iterations, an iteration at clock value `tp` that finds
`count_connected > 0`, or finds that at most 5000 ms (`5000 * 10^6` ticks) have
passed since `last_disconnect`, leaves the state as it is: the idle check sets
neither `doShutdown` nor `waitBeforeClosing`. -/
theorem idle_check_keeps_running (w : Nat) (t : Int) (evs : List Event) (tp : Int)
    (h : 0 < (replay w (initialState t) evs).sd.count_connected
      ∨ tp - (replay w (initialState t) evs).sd.last_disconnect ≤ 5000 * 1000000) :
    loopBody (replay w (initialState t) evs) tp = replay w (initialState t) evs
      ∧ replay w (initialState t) (evs ++ [Event.poll tp]) = replay w (initialState t) evs := by
  have hb : loopBody (replay w (initialState t) evs) tp = replay w (initialState t) evs := by
    rw [loopBody_eq, if_neg]
    rintro ⟨h0, hd⟩
    rcases h with h | h <;> omega
  refine ⟨hb, ?_⟩
  simp only [replay, List.foldl_append, List.foldl_cons, List.foldl_nil, step]
  split
  · rfl
  · exact hb

/-- C2 witness: a client connects and disconnects, three zero-count iterations
run inside the grace window, and the next iteration comes exactly 5000 ms after
the disconnect. -/
theorem idle_check_keeps_running_witness :
    loopBody (replay 64 (initialState 0)
        [.connect 10, .disconnect 1000000, .poll 2000000, .poll 52000000, .poll 102000000])
        5001000000
      = replay 64 (initialState 0)
        [.connect 10, .disconnect 1000000, .poll 2000000, .poll 52000000, .poll 102000000] :=
  (idle_check_keeps_running 64 0
    [.connect 10, .disconnect 1000000, .poll 2000000, .poll 52000000, .poll 102000000]
    5001000000
    (Or.inr (by
      simp [replay, step, loopBody_eq, ServerConnectHandler, ServerDisconnectHandler,
        initialState]))).1

/-- C3, as stated, fails: with no client counted and 5000.5 ms elapsed since
`last_disconnect`, an iteration of the loop sets neither flag. -/
theorem idle_check_half_millisecond_over :
    (initialState 0).sd.count_connected = 0
      ∧ (5000500000 : Int) - (initialState 0).sd.last_disconnect > 5000 * 1000000
      ∧ (loopBody (initialState 0) 5000500000).doShutdown = false
      ∧ (loopBody (initialState 0) 5000500000).waitBeforeClosing = false := by
  have h : ¬ duration_cast_ms (5000500000 - 0) > 5000 := by
    rw [duration_cast_ms_gt_iff]
    decide
  refine ⟨rfl, by simp [initialState], ?_, ?_⟩ <;>
    simp only [loopBody, initialState, if_true, if_neg h]

/-- C3, amended: when `count_connected == 0` and the time since
`last_disconnect`, truncated to whole milliseconds, exceeds 5000 (at least
5001 ms, `5001 * 10^6` ticks, have passed), one iteration of the polling loop
sets `doShutdown` and `waitBeforeClosing`. -/
theorem idle_check_requests_shutdown (st : MainState) (tp : Int)
    (hcount : st.sd.count_connected = 0)
    (helapsed : 5001 * 1000000 ≤ tp - st.sd.last_disconnect) :
    (loopBody st tp).doShutdown = true ∧ (loopBody st tp).waitBeforeClosing = true := by
  rw [loopBody_eq, if_pos ⟨hcount, by omega⟩]
  exact ⟨rfl, rfl⟩

/-- C3 witness: no client, last disconnect at tick 0, iteration at 5001 ms. -/
theorem idle_check_requests_shutdown_witness :
    (loopBody (initialState 0) 5001000000).doShutdown = true
      ∧ (loopBody (initialState 0) 5001000000).waitBeforeClosing = true :=
  idle_check_requests_shutdown (initialState 0) 5001000000 (by decide) (by decide)

/-! ## Exit of the polling loop -/

/-- The loop makes no call other than its 50 ms sleep. -/
theorem mainLoop_sleeps (w : Nat) (evs : List Event) (s st : MainState) (acts : List Action)
    (h : mainLoop w evs s = some (st, acts)) : ∀ a ∈ acts, a = Action.sleep_for 50 := by
  induction evs generalizing s acts with
  | nil => simp [mainLoop] at h
  | cons e es ih =>
    cases e with
    | connect now => exact ih _ _ (by simpa [mainLoop] using h)
    | disconnect now => exact ih _ _ (by simpa [mainLoop] using h)
    | shutdown => exact ih _ _ (by simpa [mainLoop] using h)
    | poll now =>
      simp only [mainLoop] at h
      split at h
      · cases h
        simp
      · split at h
        · cases h
        · rename_i st' acts' heq
          cases h
          intro a ha
          rcases List.mem_cons.1 ha with ha | ha
          · exact ha
          · exact ih _ _ heq a ha

/-- The loop exits only with `doShutdown` set. -/
theorem mainLoop_doShutdown (w : Nat) (evs : List Event) (s st : MainState)
    (acts : List Action) (h : mainLoop w evs s = some (st, acts)) : st.doShutdown = true := by
  induction evs generalizing s acts with
  | nil => simp [mainLoop] at h
  | cons e es ih =>
    cases e with
    | connect now => exact ih _ _ (by simpa [mainLoop] using h)
    | disconnect now => exact ih _ _ (by simpa [mainLoop] using h)
    | shutdown => exact ih _ _ (by simpa [mainLoop] using h)
    | poll now =>
      simp only [mainLoop] at h
      split at h
      · rename_i hs
        cases h
        exact hs
      · split at h
        · cases h
        · rename_i st' acts' heq
          cases h
          exact ih _ _ heq

/-- The state in which the loop exits is the replay of the events consumed. -/
theorem mainLoop_replay (w : Nat) (evs : List Event) (s st : MainState) (acts : List Action)
    (h : mainLoop w evs s = some (st, acts)) :
    ∃ pre post, evs = pre ++ post ∧ st = replay w s pre := by
  induction evs generalizing s acts with
  | nil => simp [mainLoop] at h
  | cons e es ih =>
    have hstep : ∀ acts', mainLoop w es (step w s e) = some (st, acts') →
        ∃ pre post, e :: es = pre ++ post ∧ st = replay w s pre := by
      intro acts' h'
      obtain ⟨pre, post, hes, hst⟩ := ih _ _ h'
      exact ⟨e :: pre, post, by simp [hes], by simpa [replay] using hst⟩
    cases e with
    | connect now => exact hstep acts (by simpa [mainLoop] using h)
    | disconnect now => exact hstep acts (by simpa [mainLoop] using h)
    | shutdown => exact hstep acts (by simpa [mainLoop] using h)
    | poll now =>
      simp only [mainLoop] at h
      split at h
      · cases h
        exact ⟨[], _, rfl, rfl⟩
      · rename_i hs
        split at h
        · cases h
        · rename_i st' acts' heq
          cases h
          exact hstep acts' (by simpa [step, hs] using heq)

/-- Only the idle check sets `waitBeforeClosing`: connects, disconnects and
`System::Shutdown` leave it as it is. -/
theorem step_waitBeforeClosing (w : Nat) (s : MainState) (e : Event)
    (h : (step w s e).waitBeforeClosing = true) :
    s.waitBeforeClosing = true
      ∨ ∃ tp, e = Event.poll tp ∧ s.doShutdown = false ∧ s.sd.count_connected = 0
          ∧ 5001 * 1000000 ≤ tp - s.sd.last_disconnect := by
  cases e with
  | connect now => exact Or.inl h
  | disconnect now => exact Or.inl h
  | shutdown => exact Or.inl h
  | poll now =>
    simp only [step] at h
    split at h
    · exact Or.inl h
    · rename_i hs
      rw [loopBody_eq] at h
      split at h
      · rename_i hc
        exact Or.inr ⟨now, rfl, by simpa using hs, hc.1, by omega⟩
      · exact Or.inl h

/-- If the loop, entered with `waitBeforeClosing` clear, exits with it set, then
some iteration ran with no client counted and at least 5001 ms elapsed since
`last_disconnect`. -/
theorem replay_waitBeforeClosing (w : Nat) (evs : List Event) (s : MainState)
    (h : (replay w s evs).waitBeforeClosing = true) :
    s.waitBeforeClosing = true
      ∨ ∃ pre tp post, evs = pre ++ Event.poll tp :: post
          ∧ (replay w s pre).doShutdown = false
          ∧ (replay w s pre).sd.count_connected = 0
          ∧ 5001 * 1000000 ≤ tp - (replay w s pre).sd.last_disconnect := by
  induction evs using List.reverseRecOn with
  | nil => exact Or.inl h
  | append_singleton es e ih =>
    have hr : replay w s (es ++ [e]) = step w (replay w s es) e := by
      simp [replay, List.foldl_append]
    rw [hr] at h
    rcases step_waitBeforeClosing w _ e h with h' | ⟨tp, he, h1, h2, h3⟩
    · rcases ih h' with h'' | ⟨pre, tp, post, hes, h1, h2, h3⟩
      · exact Or.inl h''
      · exact Or.inr ⟨pre, tp, post ++ [e], by simp [hes], h1, h2, h3⟩
    · exact Or.inr ⟨es, tp, [], by simp [he], h1, h2, h3⟩

/-- Without a call of `System::Shutdown`, `doShutdown` is set only together with
`waitBeforeClosing`. -/
theorem replay_idle_exit (w : Nat) (evs : List Event) (s : MainState)
    (hno : Event.shutdown ∉ evs) (hs : s.doShutdown = true → s.waitBeforeClosing = true) :
    (replay w s evs).doShutdown = true → (replay w s evs).waitBeforeClosing = true := by
  induction evs generalizing s with
  | nil => exact hs
  | cons e es ih =>
    have hes : Event.shutdown ∉ es := fun h => hno (List.mem_cons_of_mem _ h)
    refine ih (step w s e) hes ?_
    cases e with
    | connect now => exact hs
    | disconnect now => exact hs
    | shutdown => exact absurd (List.mem_cons_self _ _) hno
    | poll now =>
      simp only [step]
      split
      · exact hs
      · rw [loopBody_eq]
        split
        · intro _
          rfl
        · exact hs

/-! ## Shutdown sequence of `main` -/

/-- No call of `finalize` is made before the polling loop. -/
theorem finalize_not_mem_startup (path : String) :
    Action.finalize ∉ consoleAndCrashManager ++ registerAndInitialize path := by
  simp [consoleAndCrashManager, registerAndInitialize, registrations]

/-- Events delivered before the loop do not set `doShutdown` unless one of them
is a call of `System::Shutdown`. -/
theorem replay_early_doShutdown (w : Nat) (early : List ServerEvent) (s : MainState)
    (hs : s.doShutdown = false) (hno : ServerEvent.shutdown ∉ early) :
    (replay w s (early.map ServerEvent.toEvent)).doShutdown = false := by
  induction early generalizing s with
  | nil => exact hs
  | cons e es ih =>
    have hes : ServerEvent.shutdown ∉ es := fun h => hno (List.mem_cons_of_mem _ h)
    cases e with
    | connect now => exact ih _ hs hes
    | disconnect now => exact ih _ hs hes
    | shutdown => exact absurd (List.mem_cons_self _ _) hno

/-- Without an early call of `System::Shutdown`, `main` enters the loop with
`doShutdown` clear. -/
theorem loopEntryState_doShutdown (w : Nat) (env : MainEnv)
    (hno : ServerEvent.shutdown ∉ env.early) : (loopEntryState w env).doShutdown = false :=
  replay_early_doShutdown w env.early (initialState env.startClock) rfl hno

/-- C4, as stated, fails: when a client calls `System::Shutdown`, the loop exits
with `doShutdown` set and `main` calls `finalize` at once, with no pipe created
and no handshake message read. -/
theorem shutdown_call_skips_handshake :
    (mainLoop 64 shutdownCallEnv.events (loopEntryState 64 shutdownCallEnv)).map
        (fun r => (r.1.doShutdown, r.1.waitBeforeClosing)) = some (true, false)
      ∧ main 64 shutdownCallEnv
        = some (0, consoleAndCrashManager ++ registerAndInitialize "osn-socket"
            ++ [Action.finalize])
      ∧ Action.CreateNamedPipe ∉ consoleAndCrashManager ++ registerAndInitialize "osn-socket"
            ++ [Action.finalize]
      ∧ Action.ReadFile ∉ consoleAndCrashManager ++ registerAndInitialize "osn-socket"
            ++ [Action.finalize] := by
  refine ⟨?_, ?_, ?_, ?_⟩
  · simp [shutdownCallEnv, mainLoop, step, System.Shutdown, ServerConnectHandler,
      loopEntryState, replay, initialState]
  · simp [main, shutdownCallEnv, mainLoop, step, System.Shutdown, ServerConnectHandler,
      loopEntryState, replay, initialState, shutdownSequence]
  · simp [consoleAndCrashManager, registerAndInitialize, registrations]
  · simp [consoleAndCrashManager, registerAndInitialize, registrations]

/-- C4, amended: when the polling loop exits, `doShutdown` is set, and
`waitBeforeClosing` tells who set it: it is set whenever no client called
`System::Shutdown`, and only if the idle check fired in some iteration (no client
counted, at least 5001 ms since `last_disconnect`). Then `main` returns 0 and
* if the idle check requested the shutdown (`waitBeforeClosing` is set), `main`
  calls `CreateNamedPipe` before any `finalize`, and when the pipe is created
  and a client connects it calls `ReadFile` before any `finalize`; when the pipe
  is not created, or no client connects, or `ReadFile` succeeds, `main` then
  calls `finalize` exactly once, as its last call (the outcome in which
  `ReadFile` fails is left open here);
* if only `System::Shutdown` requested it (`waitBeforeClosing` is clear), `main`
  creates no pipe, reads no message, and its last call is its single
  `finalize`. -/
theorem handshake_only_on_idle_shutdown (w : Nat) (env : MainEnv) (st : MainState)
    (sleeps : List Action)
    (hcm : env.crashManagerInitialize = true) (hargc : env.argv.length = 2)
    (hinit : env.serverInitialize = InitializeOutcome.returns)
    (hloop : mainLoop w env.events (loopEntryState w env) = some (st, sleeps)) :
    st.doShutdown = true
      ∧ (ServerEvent.shutdown ∉ env.early → Event.shutdown ∉ env.events →
          st.waitBeforeClosing = true)
      ∧ (st.waitBeforeClosing = true →
          ∃ pre tp post, env.events = pre ++ Event.poll tp :: post
            ∧ (replay w (loopEntryState w env) pre).sd.count_connected = 0
            ∧ 5001 * 1000000
                ≤ tp - (replay w (loopEntryState w env) pre).sd.last_disconnect)
      ∧ ∃ trace, main w env = some (0, trace)
        ∧ (st.waitBeforeClosing = true →
            Precedes .CreateNamedPipe .finalize trace
              ∧ (env.CreateNamedPipe = true → env.ConnectNamedPipe = true →
                  Precedes .ReadFile .finalize trace)
              ∧ (¬ (env.CreateNamedPipe = true ∧ env.ConnectNamedPipe = true
                      ∧ env.ReadFile = false) →
                  trace.count Action.finalize = 1
                    ∧ trace.getLast? = some Action.finalize))
        ∧ (st.waitBeforeClosing = false →
            Action.CreateNamedPipe ∉ trace ∧ Action.ReadFile ∉ trace
              ∧ trace.count Action.finalize = 1 ∧ trace.getLast? = some Action.finalize) := by
  have hds := mainLoop_doShutdown w _ _ _ _ hloop
  obtain ⟨pre', post', hev, hst⟩ := mainLoop_replay w _ _ _ _ hloop
  refine ⟨hds, ?_, ?_, ?_⟩
  · intro hearly hno
    have hno' : Event.shutdown ∉ pre' := fun h => hno (by rw [hev]; exact List.mem_append_left _ h)
    have hentry := loopEntryState_doShutdown w env hearly
    rw [hst] at hds ⊢
    exact replay_idle_exit w pre' _ hno' (fun h => by rw [hentry] at h; cases h) hds
  · intro hw
    rw [hst] at hw
    rcases replay_waitBeforeClosing w pre' _ hw with h | ⟨pre, tp, post, hpre, _, h2, h3⟩
    · cases h
    · exact ⟨pre, tp, post ++ post', by simp [hev, hpre], h2, h3⟩
  have hsl := mainLoop_sleeps w _ _ _ _ hloop
  have hfs : Action.finalize ∉ sleeps := fun h => by cases hsl _ h
  have hps : Action.CreateNamedPipe ∉ sleeps := fun h => by cases hsl _ h
  have hrs : Action.ReadFile ∉ sleeps := fun h => by cases hsl _ h
  have hf0 := finalize_not_mem_startup (env.argv.getD 1 "")
  have hmain : main w env = some ((shutdownSequence st.waitBeforeClosing env).1,
      consoleAndCrashManager ++ registerAndInitialize (env.argv.getD 1 "") ++ sleeps
        ++ (shutdownSequence st.waitBeforeClosing env).2) := by
    simp [main, hcm, hargc, hinit, hloop]
  have hcode : (shutdownSequence st.waitBeforeClosing env).1 = 0 := by
    unfold shutdownSequence
    repeat' split
    all_goals rfl
  rw [hcode] at hmain
  have hpre : Action.finalize ∉
      consoleAndCrashManager ++ registerAndInitialize (env.argv.getD 1 "") ++ sleeps := by
    intro h
    rcases List.mem_append.1 h with h | h
    · exact hf0 h
    · exact hfs h
  refine ⟨_, hmain, ?_, ?_⟩
  · intro hw
    refine ⟨?_, ?_, ?_⟩
    · refine ⟨_, ((shutdownSequence true env).2).tail, ?_, hpre⟩
      rw [hw]
      unfold shutdownSequence
      cases env.CreateNamedPipe <;> cases env.ConnectNamedPipe <;> cases env.ReadFile <;> rfl
    · intro h1 h2
      refine ⟨consoleAndCrashManager ++ registerAndInitialize (env.argv.getD 1 "") ++ sleeps
          ++ [.CreateNamedPipe, .ConnectNamedPipe],
        ((shutdownSequence true env).2).drop 3, ?_, ?_⟩
      · rw [hw]
        unfold shutdownSequence
        rw [h1, h2]
        cases env.ReadFile <;> simp
      · intro h
        rcases List.mem_append.1 h with h | h
        · exact hpre h
        · simp at h
    · intro hnot
      rw [hw, List.count_append, List.count_eq_zero_of_not_mem hpre]
      unfold shutdownSequence
      cases h1 : env.CreateNamedPipe <;> cases h2 : env.ConnectNamedPipe <;>
        cases h3 : env.ReadFile <;>
        first
          | exact ⟨by decide, by simp⟩
          | exact absurd (And.intro h1 (And.intro h2 h3)) hnot
  · intro hw
    rw [hw]
    have hp0 : Action.CreateNamedPipe ∉
        consoleAndCrashManager ++ registerAndInitialize (env.argv.getD 1 "") := by
      simp [consoleAndCrashManager, registerAndInitialize, registrations]
    have hr0 : Action.ReadFile ∉
        consoleAndCrashManager ++ registerAndInitialize (env.argv.getD 1 "") := by
      simp [consoleAndCrashManager, registerAndInitialize, registrations]
    have hsq : (shutdownSequence false env).2 = [Action.finalize] := rfl
    rw [hsq]
    refine ⟨?_, ?_, ?_, ?_⟩
    · intro h
      rcases List.mem_append.1 h with h | h
      · rcases List.mem_append.1 h with h | h
        · exact hp0 h
        · exact hps h
      · simp at h
    · intro h
      rcases List.mem_append.1 h with h | h
      · rcases List.mem_append.1 h with h | h
        · exact hr0 h
        · exact hrs h
      · simp at h
    · rw [List.count_append, List.count_append, List.count_eq_zero_of_not_mem hf0,
        List.count_eq_zero_of_not_mem hfs]
      simp
    · simp

/-- C4 witness: the run `earlyDisconnectEnv`, in which the last client has left
before line 262. Counted from the clock value of that line the idle check
fires in the second iteration, so the loop exits after two sleeps with both
flags set; the pipe is created and the message read before the single, final
`finalize`. -/
theorem handshake_only_on_idle_shutdown_witness :
    ∃ trace, main 64 earlyDisconnectEnv = some (0, trace)
      ∧ Precedes .CreateNamedPipe .finalize trace ∧ Precedes .ReadFile .finalize trace
      ∧ trace.count Action.finalize = 1 ∧ trace.getLast? = some Action.finalize := by
  obtain ⟨_, _, _, trace, hm, h1, _⟩ := handshake_only_on_idle_shutdown 64 earlyDisconnectEnv
    { sd := { last_connect := 50000000, last_disconnect := 50000000, count_connected := 0 },
      doShutdown := true, waitBeforeClosing := true }
    [Action.sleep_for 50, Action.sleep_for 50] rfl rfl rfl
    (by simp [earlyDisconnectEnv, mainLoop, loopBody_eq, loopEntryState, replay, step,
          ServerEvent.toEvent, ServerConnectHandler, ServerDisconnectHandler, initialState])
  obtain ⟨p1, p2, p3⟩ := h1 rfl
  have h := p3 (by simp [earlyDisconnectEnv])
  exact ⟨trace, hm, p1, p2 rfl rfl, h.1, h.2⟩

/-- On an idle shutdown `finalize` is called once in every outcome of the
handshake but one: when the pipe is created, a client connects and `ReadFile`
fails, it is not called at all. -/
theorem shutdownSequence_finalize_count (env : MainEnv) :
    ((shutdownSequence true env).2).count Action.finalize
      = if env.CreateNamedPipe = true ∧ env.ConnectNamedPipe = true ∧ env.ReadFile = false
        then 0 else 1 := by
  unfold shutdownSequence
  cases env.CreateNamedPipe <;> cases env.ConnectNamedPipe <;> cases env.ReadFile <;> decide

/-- C5, the code at the failing input: in the idle run `readFailsEnv` the pipe is
created, the crash handler connects and `ReadFile` fails; `main` returns 0
right after `ReadFile`, and its calls contain neither `CloseHandle` nor
`finalize`. -/
theorem read_failure_skips_finalize :
    main 64 readFailsEnv
        = some (0, consoleAndCrashManager ++ registerAndInitialize "osn-socket"
            ++ [Action.sleep_for 50, .CreateNamedPipe, .ConnectNamedPipe, .ReadFile])
      ∧ (consoleAndCrashManager ++ registerAndInitialize "osn-socket"
            ++ [Action.sleep_for 50, .CreateNamedPipe, .ConnectNamedPipe, .ReadFile]).count
          Action.finalize = 0 := by
  constructor
  · simp [main, readFailsEnv, mainLoop, loopBody_eq, loopEntryState, replay, initialState,
      shutdownSequence]
  · simp [consoleAndCrashManager, registerAndInitialize, registrations]

/-! ## Startup of `main` -/

/-- C6, as stated, fails: with no argument after the program name and
`crashManager.Initialize()` failing, `main` returns 0, not -1, and writes
nothing to `std::cerr`. -/
theorem crash_manager_failure_precedes_argument_check :
    crashManagerFailsEnv.argv.length ≠ 2
      ∧ main 64 crashManagerFailsEnv
        = some (0, [.AllocConsole, .BindCrtHandlesToStdHandles, .crashManagerInitialize]) := by
  constructor
  · decide
  · rfl

/-- C6, amended: when `crashManager.Initialize()` succeeded and `argc != 2`,
`main` returns -1 after writing the diagnostic line to `std::cerr`; it
registers no collection and no handler and does not initialize the server. -/
theorem wrong_argument_count_exit (w : Nat) (env : MainEnv)
    (hcm : env.crashManagerInitialize = true) (hargc : env.argv.length ≠ 2) :
    ∃ trace, main w env = some (-1, trace)
      ∧ trace = [.AllocConsole, .BindCrtHandlesToStdHandles, .crashManagerInitialize,
          .cerr "There must be exactly one parameter."]
      ∧ (∀ cls, Action.Register cls ∉ trace)
      ∧ Action.set_connect_handler ∉ trace ∧ Action.set_disconnect_handler ∉ trace
      ∧ (∀ path, Action.serverInitialize path ∉ trace) := by
  refine ⟨_, ?_, rfl, ?_, ?_, ?_, ?_⟩
  · simp [main, hcm, hargc, consoleAndCrashManager]
  all_goals simp

/-- C6 witness: three arguments after the program name. -/
theorem wrong_argument_count_exit_witness :
    ∃ trace, main 64 threeArgumentsEnv = some (-1, trace)
      ∧ trace = [.AllocConsole, .BindCrtHandlesToStdHandles, .crashManagerInitialize,
          .cerr "There must be exactly one parameter."] := by
  obtain ⟨trace, h1, h2, _⟩ :=
    wrong_argument_count_exit 64 threeArgumentsEnv rfl (by decide)
  exact ⟨trace, h1, h2⟩

/-- C7: when the crash manager is initialised, `argc == 2` and
`myServer.initialize(argv[1])` throws (a `std::exception` or anything else),
`main` returns -2, which is neither -1 nor 0; whatever events are scheduled, it
runs no iteration of the polling loop (no sleep), makes no call of the crash
handshake and does not call `finalize`; its last call writes the diagnostic. -/
theorem initialize_failure_exit (w : Nat) (env : MainEnv)
    (hcm : env.crashManagerInitialize = true) (hargc : env.argv.length = 2)
    (hinit : env.serverInitialize ≠ InitializeOutcome.returns) :
    ∃ trace msg, main w env = some (-2, trace)
      ∧ (-2 : Int) ≠ -1 ∧ (-2 : Int) ≠ 0
      ∧ trace = consoleAndCrashManager ++ registerAndInitialize (env.argv.getD 1 "")
          ++ [.cerr msg]
      ∧ (∀ ms, Action.sleep_for ms ∉ trace)
      ∧ Action.CreateNamedPipe ∉ trace ∧ Action.ConnectNamedPipe ∉ trace
      ∧ Action.ReadFile ∉ trace ∧ Action.CloseHandle ∉ trace
      ∧ Action.finalize ∉ trace := by
  have key : ∀ msg : String,
      (∀ ms, Action.sleep_for ms ∉ consoleAndCrashManager
          ++ registerAndInitialize (env.argv.getD 1 "") ++ [.cerr msg])
      ∧ Action.CreateNamedPipe ∉ consoleAndCrashManager
          ++ registerAndInitialize (env.argv.getD 1 "") ++ [.cerr msg]
      ∧ Action.ConnectNamedPipe ∉ consoleAndCrashManager
          ++ registerAndInitialize (env.argv.getD 1 "") ++ [.cerr msg]
      ∧ Action.ReadFile ∉ consoleAndCrashManager
          ++ registerAndInitialize (env.argv.getD 1 "") ++ [.cerr msg]
      ∧ Action.CloseHandle ∉ consoleAndCrashManager
          ++ registerAndInitialize (env.argv.getD 1 "") ++ [.cerr msg]
      ∧ Action.finalize ∉ consoleAndCrashManager
          ++ registerAndInitialize (env.argv.getD 1 "") ++ [.cerr msg] := by
    intro msg
    simp [consoleAndCrashManager, registerAndInitialize, registrations]
  cases hout : env.serverInitialize with
  | returns => exact absurd hout hinit
  | throwsStdException what =>
    refine ⟨_, "Initialization failed with error " ++ what ++ ".", ?_, by decide, by decide,
      rfl, key _⟩
    simp [main, hcm, hargc, hout]
  | throwsOther =>
    refine ⟨_, "Failed to initialize server", ?_, by decide, by decide, rfl, key _⟩
    simp [main, hcm, hargc, hout]

/-- C7 witness: `bindFailsEnv`, in which `initialize` throws a `std::exception`. -/
theorem initialize_failure_exit_witness :
    ∃ trace, main 64 bindFailsEnv = some (-2, trace) ∧ Action.finalize ∉ trace := by
  obtain ⟨trace, _, h1, _, _, _, _, _, _, _, _, h2⟩ :=
    initialize_failure_exit 64 bindFailsEnv rfl rfl (by decide)
  exact ⟨trace, h1, h2⟩

/-! ## One cycle of `service::worker` -/

/-- C8: with a live connection, a Query response of fewer than two elements, or
a response of any length whose first element does not decode to
`ErrorCode::Ok`, makes the cycle end without a fault at the sleep step with
`service_queue_task_workers` as it was. -/
theorem no_dispatch_without_ok (w : Nat) (isOk : Nat → Bool) (c : Connection) (dur : Int)
    (workers : List QueueTaskThread)
    (h : c.query.length < 2 ∨ ∃ v, c.query.head? = some v ∧ isOk v.ui64 = false) :
    workerCycle w isOk (some c) dur workers = Except.ok (do_sleep w workers dur)
      ∧ (do_sleep w workers dur).service_queue_task_workers = workers := by
  refine ⟨?_, rfl⟩
  unfold workerCycle
  by_cases hlen : c.query.length = 0 ∨ c.query.length = 1
  · simp only [hlen, if_true]
  · have h2 : ¬ c.query.length < 2 := by omega
    rcases h with h | ⟨v, hv, hnot⟩
    · exact absurd h h2
    · simp only [hlen, if_false]
      cases hq : c.query with
      | nil => simp [hq] at hv
      | cons a rest =>
        rw [hq] at hv
        simp only [List.head?_cons, Option.some.injEq] at hv
        subst hv
        simp [elementAt, hnot, bind, Except.bind]

/-- C8 witness: a one-element response, and a five-element response whose
first element is the nonzero code 1, with `ErrorCode::Ok` of value 0. -/
theorem no_dispatch_without_ok_witness :
    workerCycle 64 isOkZero (some ⟨[IpcValue.ofUInt64 0]⟩) 10 []
        = Except.ok (do_sleep 64 [] 10)
      ∧ workerCycle 64 isOkZero (some ⟨signalResponse 1 "rtmp_output" "stop" 0 ""⟩) 10 []
        = Except.ok (do_sleep 64 [] 10) :=
  ⟨(no_dispatch_without_ok 64 isOkZero ⟨[IpcValue.ofUInt64 0]⟩ 10 []
      (Or.inl (by decide))).1,
   (no_dispatch_without_ok 64 isOkZero ⟨signalResponse 1 "rtmp_output" "stop" 0 ""⟩ 10 []
      (Or.inr ⟨IpcValue.ofUInt64 1, rfl, by decide⟩)).1⟩

/-- A response of two, three or four elements whose first element decodes to
`ErrorCode::Ok` makes the cycle read `response[n]` on a vector of `n`
elements. -/
theorem ok_short_response_out_of_range (w : Nat) (isOk : Nat → Bool) (c : Connection)
    (dur : Int) (workers : List QueueTaskThread) (v : IpcValue)
    (hv : c.query.head? = some v) (hok : isOk v.ui64 = true)
    (h2 : 2 ≤ c.query.length) (h4 : c.query.length ≤ 4) :
    workerCycle w isOk (some c) dur workers
      = Except.error (WorkerFault.outOfRange c.query.length c.query.length) := by
  unfold workerCycle
  have hlen : ¬ (c.query.length = 0 ∨ c.query.length = 1) := by omega
  simp only [hlen, if_false]
  match hq : c.query, hv, h2, h4 with
  | [a, b], hv, _, _ =>
    simp only [List.head?_cons, Option.some.injEq] at hv
    subst hv
    simp [elementAt, hok, bind, Except.bind]
  | [a, b, c1], hv, _, _ =>
    simp only [List.head?_cons, Option.some.injEq] at hv
    subst hv
    simp [elementAt, hok, bind, Except.bind]
  | [a, b, c1, d], hv, _, _ =>
    simp only [List.head?_cons, Option.some.injEq] at hv
    subst hv
    simp [elementAt, hok, bind, Except.bind]
  | [], _, h2, _ => simp at h2
  | [a], _, h2, _ => simp at h2
  | a :: b :: c1 :: d :: e :: rest, _, _, h4 => simp at h4

/-- C9, the code at the failing input: for the two-element response
`[Ok, "rtmp_output"]` the cycle reads `response[2]`, past the end of the
vector. -/
theorem two_element_ok_response_reads_past_end :
    workerCycle 64 isOkZero (some ⟨[IpcValue.ofUInt64 0, IpcValue.ofString "rtmp_output"]⟩)
        10 []
      = Except.error (WorkerFault.outOfRange 2 2) := by
  simp [workerCycle, elementAt, isOkZero, IpcValue.ofUInt64, IpcValue.ui64, bind, Except.bind]

/-- An `int32_t` written into `value_union` is read back through
`value_union.i32`. -/
theorem i32_ofInt32 (code : Int) (hlo : -2 ^ 31 ≤ code) (hhi : code < 2 ^ 31) :
    (IpcValue.ofInt32 code).i32 = code := by
  simp only [IpcValue.ofInt32, IpcValue.i32]
  have hnn : 0 ≤ code % 2 ^ 32 := Int.emod_nonneg _ (by norm_num)
  have hlt : code % 2 ^ 32 < 2 ^ 32 := Int.emod_lt_of_pos _ (by norm_num)
  have hcast : (((code % 2 ^ 32).toNat % 2 ^ 32 : Nat) : Int) = code % 2 ^ 32 := by
    rw [Nat.mod_eq_of_lt (by omega)]
    exact Int.toNat_of_nonneg hnn
  have hiff : (code % 2 ^ 32).toNat % 2 ^ 32 < 2 ^ 31 ↔ code % 2 ^ 32 < 2 ^ 31 := by
    rw [Nat.mod_eq_of_lt (by omega)]
    omega
  by_cases hc : code % 2 ^ 32 < 2 ^ 31
  · rw [if_pos (hiff.2 hc), hcast]
    omega
  · rw [if_neg (fun h => hc (hiff.1 h)), hcast]
    omega

/-- A response of five elements whose first element decodes to `ErrorCode::Ok`
appends one thread, whose `SignalInfo` holds elements 1 to 4 in order. -/
theorem five_element_ok_response (w : Nat) (isOk : Nat → Bool) (v0 v1 v2 v3 v4 : IpcValue)
    (dur : Int) (workers : List QueueTaskThread) (hok : isOk v0.ui64 = true) :
    workerCycle w isOk (some ⟨[v0, v1, v2, v3, v4]⟩) dur workers
      = Except.ok (do_sleep w (workers ++ [{ data :=
          { outputType := v1.value_str, signal := v2.value_str, code := v3.i32,
            errorMessage := v4.value_str } }]) dur) := by
  have hlen : ¬ (([v0, v1, v2, v3, v4] : List IpcValue).length = 0
      ∨ ([v0, v1, v2, v3, v4] : List IpcValue).length = 1) := by simp
  unfold workerCycle
  simp only [hlen, if_false]
  have e0 : elementAt [v0, v1, v2, v3, v4] 0 = Except.ok v0 := rfl
  have e1 : elementAt [v0, v1, v2, v3, v4] 1 = Except.ok v1 := rfl
  have e2 : elementAt [v0, v1, v2, v3, v4] 2 = Except.ok v2 := rfl
  have e3 : elementAt [v0, v1, v2, v3, v4] 3 = Except.ok v3 := rfl
  have e4 : elementAt [v0, v1, v2, v3, v4] 4 = Except.ok v4 := rfl
  rw [e0, e1, e2, e3, e4]
  simp only [bind, Except.bind, hok, if_true]

/-- C10: for a response `[Ok, outputType, signal, code, errorMessage]` with any
strings and any `code` of 32 bits, one cycle ends without a fault and leaves
`service_queue_task_workers` with exactly one thread appended; the `SignalInfo`
of that thread has the fields `outputType`, `signal`, `code`, `errorMessage` of
the response. -/
theorem ok_response_dispatches_once (w : Nat) (isOk : Nat → Bool) (ok : Nat)
    (outputType signal errorMessage : String) (code : Int) (dur : Int)
    (workers : List QueueTaskThread)
    (hok : isOk (IpcValue.ofUInt64 ok).ui64 = true)
    (hlo : -2 ^ 31 ≤ code) (hhi : code < 2 ^ 31) :
    ∃ r, workerCycle w isOk (some ⟨signalResponse ok outputType signal code errorMessage⟩)
          dur workers = Except.ok r
      ∧ r.service_queue_task_workers
        = workers ++ [{ data := { outputType := outputType, signal := signal, code := code,
                                  errorMessage := errorMessage } }] := by
  refine ⟨_, five_element_ok_response w isOk _ _ _ _ _ dur workers hok, ?_⟩
  simp [do_sleep, IpcValue.ofString, i32_ofInt32 code hlo hhi]

/-- C10 witness: the response for `outputType "rtmp_output"`, `signal "stop"`,
`code 0`, `errorMessage ""`, with `ErrorCode::Ok` of value 0 and an empty
vector of threads. -/
theorem ok_response_dispatches_once_witness :
    ∃ r, workerCycle 64 isOkZero (some ⟨signalResponse 0 "rtmp_output" "stop" 0 ""⟩) 10 []
          = Except.ok r
      ∧ r.service_queue_task_workers
        = [{ data := { outputType := "rtmp_output", signal := "stop", code := 0,
                       errorMessage := "" } }] :=
  ok_response_dispatches_once 64 isOkZero 0 "rtmp_output" "stop" "" 0 10 []
    (by decide) (by decide) (by decide)

/-! ## The sleep that ends a cycle -/

/-- On a 64-bit `size_t`, `do_sleep` hands `33 - d` to `sleep_for` as a signed
count: the wrap of `totalSleepMS` is undone by the conversion to the count of
`std::chrono::milliseconds`. -/
theorem do_sleep_64 (workers : List QueueTaskThread) (d : Int) (h0 : 0 ≤ d)
    (h1 : d < 2 ^ 63) :
    ((do_sleep 64 workers d).totalSleepMS : Int) = (33 - d) % 2 ^ 64
      ∧ (do_sleep 64 workers d).sleep_for = 33 - d := by
  simp only [do_sleep, sleepIntervalMS]
  norm_num at h1 ⊢
  constructor
  · omega
  · split <;> omega

/-- On a 32-bit `size_t` the wrapped value stays positive: after a cycle of
40 ms the count handed to `sleep_for` is `2^32 - 7`. -/
theorem do_sleep_32_overrun :
    (do_sleep 32 [] 40).sleep_for = 4294967289 := by
  simp only [do_sleep, sleepIntervalMS]
  norm_num
  omega

/-- C11, as stated, fails: after a cycle of 40 ms, on a 64-bit `size_t`,
`totalSleepMS` holds `2^64 - 7` and the duration handed to `sleep_for` is
-7 ms, not `max(0, 33 - 40) = 0` ms. -/
theorem overrun_hands_negative_duration :
    (do_sleep 64 [] 40).totalSleepMS = 18446744073709551609
      ∧ (do_sleep 64 [] 40).sleep_for = -7
      ∧ (do_sleep 64 [] 40).sleep_for ≠ max 0 ((sleepIntervalMS : Int) - 40) := by
  have h : (do_sleep 64 [] 40).sleep_for = -7 := by
    rw [(do_sleep_64 [] 40 (by decide) (by decide)).2]
    decide
  refine ⟨?_, h, ?_⟩
  · simp only [do_sleep, sleepIntervalMS]
    norm_num
    omega
  · rw [h]
    decide

/-- C11, amended: for a cycle that took `d` whole milliseconds (`0 ≤ d`, `d` a
signed 64-bit count) and `sleepIntervalMS = 33`, on a 64-bit `size_t`, the
`size_t` variable `totalSleepMS` holds `(33 - d) mod 2^64` and the duration
handed to `sleep_for` is the signed count `33 - d` milliseconds. Since
`sleep_for` does not block on a count that is zero or negative, the thread
blocks for `max(0, 33 - d)` ms: not at all when `d >= 33`. A cycle without a
connection reaches this sleep. -/
theorem sleep_duration_after_cycle (isOk : Nat → Bool) (workers : List QueueTaskThread)
    (d : Int) (h0 : 0 ≤ d) (h1 : d < 2 ^ 63) :
    workerCycle 64 isOk none d workers = Except.ok (do_sleep 64 workers d)
      ∧ ((do_sleep 64 workers d).totalSleepMS : Int) = ((sleepIntervalMS : Int) - d) % 2 ^ 64
      ∧ (do_sleep 64 workers d).sleep_for = (sleepIntervalMS : Int) - d
      ∧ blockedMs (do_sleep 64 workers d).sleep_for = max 0 ((sleepIntervalMS : Int) - d)
      ∧ (33 ≤ d → blockedMs (do_sleep 64 workers d).sleep_for = 0) := by
  obtain ⟨ht, hs⟩ := do_sleep_64 workers d h0 h1
  have h33 : ((sleepIntervalMS : Nat) : Int) = 33 := rfl
  refine ⟨rfl, ?_, ?_, ?_, ?_⟩
  · rw [h33]
    exact ht
  · rw [h33]
    exact hs
  · rw [h33, hs]
    rfl
  · intro hd
    rw [hs]
    unfold blockedMs
    exact max_eq_left (by omega)

/-- C11 witness: a cycle of 10 ms is followed by a sleep of 23 ms. -/
theorem sleep_duration_after_cycle_witness :
    (do_sleep 64 [] 10).sleep_for = 23 ∧ blockedMs (do_sleep 64 [] 10).sleep_for = 23 := by
  obtain ⟨_, _, h3, h4, _⟩ :=
    sleep_duration_after_cycle isOkZero [] 10 (by decide) (by decide)
  exact ⟨by rw [h3]; decide, by rw [h4]; decide⟩

/-! ## Start and stop of the poller -/

/-- No exported function clears `isWorkerRunning`. -/
theorem apply_isWorkerRunning (s : ServiceState) (op : ServiceOp)
    (h : s.isWorkerRunning = true) : (op.apply s).isWorkerRunning = true := by
  cases op with
  | startStreaming conn =>
    cases conn <;> simp [ServiceOp.apply, service.OBS_service_startStreaming, h]
  | startRecording conn =>
    cases conn <;> simp [ServiceOp.apply, service.OBS_service_startRecording, h]
  | startReplayBuffer conn =>
    cases conn <;> simp [ServiceOp.apply, service.OBS_service_startReplayBuffer, h]
  | removeCallback =>
    cases hs : s.worker_stop <;>
      simp [ServiceOp.apply, service.OBS_service_removeCallback, service.stop_worker, h, hs]
  | other function conn =>
    cases conn <;> simp [ServiceOp.apply, service.forward, h]

/-- Each of the three start functions leaves `isWorkerRunning` set. -/
theorem start_sets_isWorkerRunning (s : ServiceState) (conn : Bool) :
    (service.OBS_service_startStreaming conn s).isWorkerRunning = true
      ∧ (service.OBS_service_startRecording conn s).isWorkerRunning = true
      ∧ (service.OBS_service_startReplayBuffer conn s).isWorkerRunning = true := by
  cases conn <;> cases h : s.isWorkerRunning <;>
    simp [service.OBS_service_startStreaming, service.OBS_service_startRecording,
      service.OBS_service_startReplayBuffer, h]

/-- The poll loop runs (`worker_stop` is clear) only with `isWorkerRunning` set:
the property holds initially and every exported function keeps it. -/
theorem apply_running_flag (s : ServiceState) (op : ServiceOp)
    (h : s.worker_stop = false → s.isWorkerRunning = true) :
    (op.apply s).worker_stop = false → (op.apply s).isWorkerRunning = true := by
  cases hr : s.isWorkerRunning with
  | true => exact fun _ => apply_isWorkerRunning s op hr
  | false =>
    have hw : s.worker_stop = true := by
      cases hw : s.worker_stop with
      | true => rfl
      | false => rw [h hw] at hr; cases hr
    cases op with
    | startStreaming conn =>
      cases conn <;> simp [ServiceOp.apply, service.OBS_service_startStreaming, hr]
    | startRecording conn =>
      cases conn <;> simp [ServiceOp.apply, service.OBS_service_startRecording, hr]
    | startReplayBuffer conn =>
      cases conn <;> simp [ServiceOp.apply, service.OBS_service_startReplayBuffer, hr]
    | removeCallback =>
      simp [ServiceOp.apply, service.OBS_service_removeCallback, hr, hw]
    | other function conn =>
      cases conn <;> simp [ServiceOp.apply, service.forward, hw]

theorem runOps_running_flag (ops : List ServiceOp) (s : ServiceState)
    (h : s.worker_stop = false → s.isWorkerRunning = true) :
    (runOps s ops).worker_stop = false → (runOps s ops).isWorkerRunning = true := by
  induction ops generalizing s with
  | nil => exact h
  | cons op ops ih => exact ih (op.apply s) (apply_running_flag s op h)

/-- Once the poller has been started and stopped, an exported function changes
neither flag and creates no poll thread. -/
theorem apply_stopped (s : ServiceState) (op : ServiceOp)
    (hr : s.isWorkerRunning = true) (hw : s.worker_stop = true) :
    (op.apply s).isWorkerRunning = true ∧ (op.apply s).worker_stop = true
      ∧ workerThreads (op.apply s) = workerThreads s := by
  cases op with
  | startStreaming conn =>
    cases conn <;>
      simp [ServiceOp.apply, service.OBS_service_startStreaming, hr, hw, workerThreads]
  | startRecording conn =>
    cases conn <;>
      simp [ServiceOp.apply, service.OBS_service_startRecording, hr, hw, workerThreads]
  | startReplayBuffer conn =>
    cases conn <;>
      simp [ServiceOp.apply, service.OBS_service_startReplayBuffer, hr, hw, workerThreads]
  | removeCallback =>
    simp [ServiceOp.apply, service.OBS_service_removeCallback, service.stop_worker, hr, hw,
      workerThreads]
  | other function conn =>
    cases conn <;> simp [ServiceOp.apply, service.forward, hr, hw, workerThreads]

theorem runOps_stopped (ops : List ServiceOp) (s : ServiceState)
    (hr : s.isWorkerRunning = true) (hw : s.worker_stop = true) :
    (runOps s ops).isWorkerRunning = true ∧ (runOps s ops).worker_stop = true
      ∧ workerThreads (runOps s ops) = workerThreads s := by
  induction ops generalizing s with
  | nil => exact ⟨hr, hw, rfl⟩
  | cons op ops ih =>
    obtain ⟨h1, h2, h3⟩ := apply_stopped s op hr hw
    obtain ⟨g1, g2, g3⟩ := ih (op.apply s) h1 h2
    exact ⟨g1, g2, g3.trans h3⟩

theorem runOps_append (s : ServiceState) (xs ys : List ServiceOp) :
    runOps s (xs ++ ys) = runOps (runOps s xs) ys := by
  simp [runOps, List.foldl_append]

/-- C12: each of the three start functions leaves `isWorkerRunning` set, and no
exported function clears it. Hence, when the poller runs after the calls `pre`
(`worker_stop` is clear) and `OBS_service_removeCallback` stops it, then after
any further calls `later` both flags are still set and no poll thread has been
created since: later calls of the start functions do not restart the loop, and
a further `OBS_service_removeCallback` still takes the `stop_worker` branch
(`isWorkerRunning` is set), where `stop_worker` changes nothing. -/
theorem poller_not_restarted_after_stop (pre later : List ServiceOp)
    (hrun : (runOps ServiceState.initial pre).worker_stop = false) :
    (∀ (s : ServiceState) (conn : Bool),
        (service.OBS_service_startStreaming conn s).isWorkerRunning = true
          ∧ (service.OBS_service_startRecording conn s).isWorkerRunning = true
          ∧ (service.OBS_service_startReplayBuffer conn s).isWorkerRunning = true)
      ∧ (∀ (s : ServiceState) (op : ServiceOp),
          s.isWorkerRunning = true → (op.apply s).isWorkerRunning = true)
      ∧ (runOps ServiceState.initial (pre ++ [.removeCallback])).worker_stop = true
      ∧ (runOps ServiceState.initial (pre ++ [.removeCallback] ++ later)).worker_stop = true
      ∧ (runOps ServiceState.initial (pre ++ [.removeCallback] ++ later)).isWorkerRunning = true
      ∧ workerThreads (runOps ServiceState.initial (pre ++ [.removeCallback] ++ later))
          = workerThreads (runOps ServiceState.initial pre)
      ∧ service.stop_worker (runOps ServiceState.initial (pre ++ [.removeCallback] ++ later))
          = runOps ServiceState.initial (pre ++ [.removeCallback] ++ later) := by
  have hr : (runOps ServiceState.initial pre).isWorkerRunning = true :=
    runOps_running_flag pre ServiceState.initial (by simp [ServiceState.initial]) hrun
  have hstop : runOps ServiceState.initial (pre ++ [.removeCallback])
      = service.OBS_service_removeCallback (runOps ServiceState.initial pre) := by
    rw [runOps_append]
    rfl
  have h1 : (runOps ServiceState.initial (pre ++ [.removeCallback])).isWorkerRunning = true := by
    rw [hstop]
    simp [service.OBS_service_removeCallback, service.stop_worker, hr, hrun]
  have h2 : (runOps ServiceState.initial (pre ++ [.removeCallback])).worker_stop = true := by
    rw [hstop]
    simp [service.OBS_service_removeCallback, service.stop_worker, hr, hrun]
  have h3 : workerThreads (runOps ServiceState.initial (pre ++ [.removeCallback]))
      = workerThreads (runOps ServiceState.initial pre) := by
    rw [hstop]
    simp [service.OBS_service_removeCallback, service.stop_worker, hr, hrun, workerThreads]
  obtain ⟨g1, g2, g3⟩ := runOps_stopped later _ h1 h2
  rw [← runOps_append] at g1 g2 g3
  refine ⟨start_sets_isWorkerRunning, apply_isWorkerRunning, h2, g2, g1, g3.trans h3, ?_⟩
  unfold service.stop_worker
  rw [g2]
  rfl

/-- C12 witness: streaming is started, the callback is removed, then recording,
streaming and the replay buffer are started and the callback is removed again:
one poll thread was created in all, and `worker_stop` is still set. -/
theorem poller_not_restarted_after_stop_witness :
    (runOps ServiceState.initial
        ([.startStreaming true] ++ [.removeCallback]
          ++ [.startRecording true, .startStreaming true, .startReplayBuffer true,
              .removeCallback])).worker_stop = true
      ∧ workerThreads (runOps ServiceState.initial
        ([.startStreaming true] ++ [.removeCallback]
          ++ [.startRecording true, .startStreaming true, .startReplayBuffer true,
              .removeCallback]))
        = workerThreads (runOps ServiceState.initial [.startStreaming true]) := by
  obtain ⟨_, _, _, h4, _, h6, _⟩ := poller_not_restarted_after_stop
    [.startStreaming true]
    [.startRecording true, .startStreaming true, .startReplayBuffer true, .removeCallback]
    (by decide)
  exact ⟨h4, h6⟩

end ObsStudioNode
